import Mathlib

/-!
Verification of the streaming bulk-import core of csv2db.py.

The embedding models, from the source:
  - transfer (src/csv2db.py lines 158-173): the chunked copy loop from the
    CSV stream into the FIFO.  Byte streams are lists of naturals; the
    reader side of the FIFO is abstracted as a fault oracle fw that, given
    the number of bytes already written in this attempt and the size of the
    next write, says whether the write (or flush) raises BrokenPipeError.
  - the adaptive retry loop of create_import_sqlite (lines 112-127):
    exponent starts at 24, each attempt seeks the source to 0, a
    BrokenPipeError decrements the exponent by one, any normal return of
    transfer breaks out of the loop.
  - create_import_sqlite's try/except/else/finally structure (lines 84-155),
    including Python's unbound-local semantics: the finally block reads
    proc, fifo_fname and tmpdir, which are unbound on early-failure paths
    and then raise UnboundLocalError (a NameError) inside finally,
    replacing any in-flight exception and skipping the rest of the block.
  - main (lines 176-193): the CLI dispatch, including the fact that
    name_filter is only assigned when the --filter option is present.
-/

namespace Csv2db

/-- Outcome of one call of transfer: normal return of True, implicit
return of None (the while loop body never ran to its return), a raised
BrokenPipeError, or fuel exhaustion (unreachable for the fuel used here).
Each carries the bytes successfully written to the FIFO so far, in order. -/
inductive TOut
  | rTrue (written : List Nat)
  | rNone (written : List Nat)
  | bpe (written : List Nat)
  | spin
  deriving DecidableEq, Repr

/-- Bytes written to the channel by a transfer outcome. -/
def writtenOf : TOut → List Nat
  | TOut.rTrue w => w
  | TOut.rNone w => w
  | TOut.bpe w => w
  | TOut.spin => []

/-- Whether the outcome is a raised BrokenPipeError. -/
def isBpe : TOut → Bool
  | TOut.bpe _ => true
  | _ => false

/-- The while loop of transfer (csv2db.py lines 160-173).  left is the
remaining-byte counter, pos the source read position, written the bytes
already written this attempt.  Each iteration reads
can_do = min left buf_size bytes from the source, writes and flushes them
(the oracle fw decides whether this raises BrokenPipeError), subtracts
can_do from left, and returns True as soon as left reaches zero; if the
loop is never entered it falls through and returns None.  fuel bounds the
number of iterations; fuel = left suffices whenever bufSize is positive. -/
def transferGo (fw : Nat → Nat → Bool) (src : List Nat) (bufSize : Nat) :
    Nat → Nat → Nat → List Nat → TOut
  | 0, left, _, written =>
    if left = 0 then TOut.rNone written else TOut.spin
  | fuel+1, left, pos, written =>
    if left = 0 then TOut.rNone written
    else if fw written.length (min left bufSize) then TOut.bpe written
    else if left - min left bufSize = 0 then
      TOut.rTrue (written ++ (src.drop pos).take (min left bufSize))
    else
      transferGo fw src bufSize fuel (left - min left bufSize)
        (pos + min left bufSize)
        (written ++ (src.drop pos).take (min left bufSize))

/-- One call transfer(fifo_fh, csv_fh, file_info, buf_size) with the source
freshly rewound to position 0 and left initialised to the stream length
(file_info.file_size of the real code equals the stream length). -/
def transferRun (fw : Nat → Nat → Bool) (src : List Nat) (bufSize : Nat) : TOut :=
  transferGo fw src bufSize src.length src.length 0 []

/-- Record of one attempt of the adaptive loop: the chunk-size exponent,
the source position at which the attempt started reading (always 0, from
csv_fh.seek(0) at line 116), and the transfer outcome. -/
structure Att where
  p : Nat
  startPos : Nat
  out : TOut
  deriving DecidableEq, Repr

/-- The adaptive retry loop of create_import_sqlite (lines 112-127):
while buf_size_power > 0, seek the source to 0 and run transfer with
buf_size 2 ^ buf_size_power; on BrokenPipeError decrement the exponent and
continue; on any normal return break.  The oracle family ora gives the
per-write fault oracle of the attempt made at each exponent (each exponent
is attempted at most once).  Returns the list of attempts in order and
some p if the loop broke at exponent p, none if the loop exhausted all
exponents down to 0 (in which case the code raises nothing and simply
falls out of the loop). -/
def adaptiveGo (ora : Nat → Nat → Nat → Bool) (src : List Nat) :
    Nat → List Att → List Att × Option Nat
  | 0, acc => (acc, none)
  | q+1, acc =>
    match transferRun (ora (q+1)) src (2 ^ (q+1)) with
    | TOut.bpe w => adaptiveGo ora src q (acc ++ [⟨q+1, 0, TOut.bpe w⟩])
    | o => (acc ++ [⟨q+1, 0, o⟩], some (q+1))

/-- Python exceptions that can escape create_import_sqlite in the model. -/
inductive PyExc
  | unboundLocal
  | calledProcess
  | fileNotFound
  | brokenPipe
  deriving DecidableEq, Repr

/-- Result of a modelled Python call: normal return (of None) or a
propagated exception. -/
inductive Res
  | ret
  | exc (e : PyExc)
  deriving DecidableEq, Repr

/-- Observable events of create_import_sqlite, in program order. -/
inductive Ev
  | mkdtemp
  | mkfifo
  | schemaRun
  | popenStart
  | attempt (p : Nat) (failed : Bool)
  | csvClose
  | quitWrite
  | quitFlush
  | stdinClose
  | procWait
  | rmFifo
  | rmTmpdir
  deriving DecidableEq, Repr

/-- The event recorded for one adaptive-loop attempt. -/
def attEv (a : Att) : Ev := Ev.attempt a.p (isBpe a.out)

/-- The finally block of create_import_sqlite (lines 132-155).  The flags
say which locals were assigned before the finally ran (Python raises
UnboundLocalError when an unassigned local is read), whether the FIFO
entry still exists on disk when os.remove runs, and whether the .quit
write/flush/close/wait sequence on the loader succeeds.  pending is the
in-flight exception of the try/else suite, re-raised only if the finally
completes without raising; an exception inside finally replaces it. -/
def finallyRun (tmpdirDef fifoDef procDef fifoOnDisk quitOk : Bool)
    (pending : Option PyExc) (evs : List Ev) : List Ev × Res :=
  let evs1 := evs ++ [Ev.csvClose]
  if procDef = false then (evs1, Res.exc PyExc.unboundLocal)
  else if quitOk = false then
    (evs1 ++ [Ev.quitWrite], Res.exc PyExc.brokenPipe)
  else
    let evs2 := evs1 ++ [Ev.quitWrite, Ev.quitFlush, Ev.stdinClose, Ev.procWait]
    if fifoDef = false then (evs2, Res.exc PyExc.unboundLocal)
    else if fifoOnDisk = false then (evs2, Res.exc PyExc.fileNotFound)
    else
      let evs3 := evs2 ++ [Ev.rmFifo]
      if tmpdirDef = false then (evs3, Res.exc PyExc.unboundLocal)
      else
        (evs3 ++ [Ev.rmTmpdir],
          match pending with
          | some e => Res.exc e
          | none => Res.ret)

/-- create_import_sqlite (lines 84-155).  dtOk: tempfile.mkdtemp succeeds;
fifoOk: os.mkfifo succeeds (an OSError from either is caught and logged by
the except clause, leaving later locals unassigned); schemaOk: the
synchronous sqlite3 run that creates the table exits zero (check=True
raises CalledProcessError otherwise, skipping the rest of the else suite);
ora, src: fault oracle family and source stream of the adaptive loop;
quitOk and vanished parametrise the finally block.  fifo_fname is assigned
(line 87) before os.mkfifo runs, so it is defined whenever mkdtemp
succeeded even if mkfifo failed. -/
def create_import_sqlite (dtOk fifoOk schemaOk : Bool)
    (ora : Nat → Nat → Nat → Bool) (src : List Nat)
    (quitOk vanished : Bool) : List Ev × Res :=
  if dtOk = false then
    finallyRun false false false false quitOk none []
  else if fifoOk = false then
    finallyRun true true false false quitOk none [Ev.mkdtemp]
  else if schemaOk = false then
    finallyRun true true false true quitOk (some PyExc.calledProcess)
      [Ev.mkdtemp, Ev.mkfifo, Ev.schemaRun]
  else
    let r := adaptiveGo ora src 24 []
    finallyRun true true true (!vanished) quitOk none
      ([Ev.mkdtemp, Ev.mkfifo, Ev.schemaRun, Ev.popenStart] ++ r.1.map attEv)

/-- Observable actions of main (lines 176-193). -/
inductive MainEv
  | printHelp
  | zipWalk
  deriving DecidableEq, Repr

/-- main (lines 176-193) over the truthiness of the three string options.
create_fn is initialised to None and reassigned when --sqlite is present;
name_filter is assigned only inside the if at lines 183-184, so when --zip
is present without --filter the reference to name_filter at line 188
raises UnboundLocalError before zip_walker runs; without --zip the else
branch prints the help text and main returns None. -/
def mainRun (hasZip hasSqlite hasFilter : Bool) : List MainEv × Res :=
  if hasZip then
    if hasFilter then ([MainEv.zipWalk], Res.ret)
    else ([], Res.exc PyExc.unboundLocal)
  else ([MainEv.printHelp], Res.ret)

/-- Fault oracle of a reader that closes its end before the first write of
every attempt: every write raises BrokenPipeError. -/
def oraAll : Nat → Nat → Nat → Bool := fun _ _ _ => true

/-- Fault oracle of a reader that never closes early: no write ever fails. -/
def oraNone : Nat → Nat → Nat → Bool := fun _ _ _ => false

/-- Fault oracle of a reader that cannot absorb a single write larger than
2 ^ 20 bytes (1 MiB): such a write raises BrokenPipeError, smaller writes
always succeed. -/
def oraMib : Nat → Nat → Nat → Bool := fun _ _ c => decide (2 ^ 20 < c)

/-- Whether an event is a transfer attempt. -/
def evIsAttempt : Ev → Bool
  | Ev.attempt _ _ => true
  | _ => false

/-- Whether an event is a transfer attempt that did not fail. -/
def evIsOkAttempt : Ev → Bool
  | Ev.attempt _ failed => !failed
  | _ => false

/-- The attempt list produced when the attempts at exponents q, q-1, ..., 1
all raise BrokenPipeError: one failed attempt per exponent, each reading
the source from position 0. -/
def failSeg (ora : Nat → Nat → Nat → Bool) (src : List Nat) : Nat → List Att
  | 0 => []
  | q+1 => ⟨q+1, 0, transferRun (ora (q+1)) src (2 ^ (q+1))⟩ :: failSeg ora src q

/-- Number of failed attempts in an attempt list. -/
def countFailed (l : List Att) : Nat := (l.filter fun a => isBpe a.out).length

/-- Exponent and failure flag of each attempt, in order. -/
def attemptTags (l : List Att) : List (Nat × Bool) :=
  l.map fun a => (a.p, isBpe a.out)

theorem transferGo_noFail (fw : Nat → Nat → Bool) (src : List Nat) (bufSize : Nat)
    (hb : 1 ≤ bufSize) (hfw : ∀ w c, c ≤ bufSize → fw w c = false) :
    ∀ fuel left pos written, left ≤ fuel →
      transferGo fw src bufSize fuel left pos written =
        if left = 0 then TOut.rNone written
        else TOut.rTrue (written ++ (src.drop pos).take left) := by
  intro fuel
  induction fuel with
  | zero =>
    intro left pos written hle
    have h0 : left = 0 := Nat.le_zero.mp hle
    subst h0
    simp [transferGo]
  | succ n ih =>
    intro left pos written hle
    by_cases h0 : left = 0
    · subst h0; simp [transferGo]
    · have hfw2 : fw written.length (min left bufSize) = false :=
        hfw _ _ (min_le_right _ _)
      simp only [transferGo, if_neg h0, hfw2, Bool.false_eq_true, if_false]
      by_cases hsmall : left ≤ bufSize
      · have hmin : min left bufSize = left := min_eq_left hsmall
        rw [hmin, Nat.sub_self, if_pos rfl]
      · push_neg at hsmall
        have hmin : min left bufSize = bufSize := min_eq_right (le_of_lt hsmall)
        rw [hmin]
        have hne : ¬(left - bufSize = 0) := by omega
        rw [if_neg hne]
        rw [ih (left - bufSize) (pos + bufSize) _ (by omega)]
        rw [if_neg hne]
        rw [List.append_assoc]
        congr 1
        have hsplit : left = bufSize + (left - bufSize) := by omega
        rw [show (src.drop pos).take left
              = (src.drop pos).take (bufSize + (left - bufSize)) by rw [← hsplit]]
        rw [List.take_add, List.drop_drop]

theorem transferRun_noFail (fw : Nat → Nat → Bool) (src : List Nat) (bufSize : Nat)
    (hb : 1 ≤ bufSize) (hfw : ∀ w c, c ≤ bufSize → fw w c = false) :
    transferRun fw src bufSize =
      if src.length = 0 then TOut.rNone [] else TOut.rTrue src := by
  unfold transferRun
  rw [transferGo_noFail fw src bufSize hb hfw src.length src.length 0 [] le_rfl]
  by_cases h : src.length = 0 <;> simp [h]

theorem transferGo_firstFail (fw : Nat → Nat → Bool) (src : List Nat)
    (bufSize fuel left pos : Nat) (written : List Nat)
    (h0 : ¬left = 0) (hf : ¬fuel = 0)
    (hfw : fw written.length (min left bufSize) = true) :
    transferGo fw src bufSize fuel left pos written = TOut.bpe written := by
  cases fuel with
  | zero => exact absurd rfl hf
  | succ n => simp [transferGo, h0, hfw]

theorem transferRun_firstFail (fw : Nat → Nat → Bool) (src : List Nat)
    (bufSize : Nat) (h0 : ¬src.length = 0)
    (hfw : fw 0 (min src.length bufSize) = true) :
    transferRun fw src bufSize = TOut.bpe [] := by
  unfold transferRun
  exact transferGo_firstFail fw src bufSize src.length src.length 0 [] h0 h0 hfw

theorem adaptiveGo_step_bpe (ora : Nat → Nat → Nat → Bool) (src : List Nat)
    (q : Nat) (acc : List Att) (w : List Nat)
    (h : transferRun (ora (q+1)) src (2 ^ (q+1)) = TOut.bpe w) :
    adaptiveGo ora src (q+1) acc
      = adaptiveGo ora src q (acc ++ [⟨q+1, 0, TOut.bpe w⟩]) := by
  simp [adaptiveGo, h]

theorem adaptiveGo_step_done (ora : Nat → Nat → Nat → Bool) (src : List Nat)
    (q : Nat) (acc : List Att) (o : TOut)
    (h : transferRun (ora (q+1)) src (2 ^ (q+1)) = o) (hno : isBpe o = false) :
    adaptiveGo ora src (q+1) acc = (acc ++ [⟨q+1, 0, o⟩], some (q+1)) := by
  cases o with
  | bpe w => simp [isBpe] at hno
  | rTrue w => simp [adaptiveGo, h]
  | rNone w => simp [adaptiveGo, h]
  | spin => simp [adaptiveGo, h]

theorem adaptiveGo_acc (ora : Nat → Nat → Nat → Bool) (src : List Nat) :
    ∀ q acc, ∃ t, (adaptiveGo ora src q acc).1 = acc ++ t := by
  intro q
  induction q with
  | zero => intro acc; exact ⟨[], by simp [adaptiveGo]⟩
  | succ n ih =>
    intro acc
    cases hout : transferRun (ora (n+1)) src (2 ^ (n+1)) with
    | bpe w =>
      obtain ⟨t, ht⟩ := ih (acc ++ [⟨n+1, 0, TOut.bpe w⟩])
      refine ⟨⟨n+1, 0, TOut.bpe w⟩ :: t, ?_⟩
      rw [adaptiveGo_step_bpe ora src n acc w hout, ht]
      simp
    | rTrue w =>
      exact ⟨[⟨n+1, 0, TOut.rTrue w⟩],
        by rw [adaptiveGo_step_done ora src n acc _ hout rfl]⟩
    | rNone w =>
      exact ⟨[⟨n+1, 0, TOut.rNone w⟩],
        by rw [adaptiveGo_step_done ora src n acc _ hout rfl]⟩
    | spin =>
      exact ⟨[⟨n+1, 0, TOut.spin⟩],
        by rw [adaptiveGo_step_done ora src n acc _ hout rfl]⟩

theorem adaptiveGo_first (ora : Nat → Nat → Nat → Bool) (src : List Nat)
    (q : Nat) (acc : List Att) (hq : ¬q = 0) :
    ∃ t, (adaptiveGo ora src q acc).1 =
      acc ++ ⟨q, 0, transferRun (ora q) src (2 ^ q)⟩ :: t := by
  cases q with
  | zero => exact absurd rfl hq
  | succ n =>
    cases hout : transferRun (ora (n+1)) src (2 ^ (n+1)) with
    | bpe w =>
      obtain ⟨t, ht⟩ := adaptiveGo_acc ora src n (acc ++ [⟨n+1, 0, TOut.bpe w⟩])
      refine ⟨t, ?_⟩
      rw [adaptiveGo_step_bpe ora src n acc w hout, ht]
      simp
    | rTrue w =>
      refine ⟨[], ?_⟩
      rw [adaptiveGo_step_done ora src n acc _ hout rfl]
    | rNone w =>
      refine ⟨[], ?_⟩
      rw [adaptiveGo_step_done ora src n acc _ hout rfl]
    | spin =>
      refine ⟨[], ?_⟩
      rw [adaptiveGo_step_done ora src n acc _ hout rfl]

theorem adaptiveGo_allFail (ora : Nat → Nat → Nat → Bool) (src : List Nat) :
    ∀ q acc,
      (∀ i, i < q → isBpe (transferRun (ora (i+1)) src (2 ^ (i+1))) = true) →
      adaptiveGo ora src q acc = (acc ++ failSeg ora src q, none) := by
  intro q
  induction q with
  | zero => intro acc _; simp [adaptiveGo, failSeg]
  | succ n ih =>
    intro acc h
    have hn := h n (Nat.lt_succ_self n)
    cases hout : transferRun (ora (n+1)) src (2 ^ (n+1)) with
    | bpe w =>
      rw [adaptiveGo_step_bpe ora src n acc w hout]
      rw [ih _ (fun i hi => h i (Nat.lt_succ_of_lt hi))]
      simp [failSeg, hout]
    | rTrue w => rw [hout] at hn; simp [isBpe] at hn
    | rNone w => rw [hout] at hn; simp [isBpe] at hn
    | spin => rw [hout] at hn; simp [isBpe] at hn

theorem failSeg_length (ora : Nat → Nat → Nat → Bool) (src : List Nat) :
    ∀ q, (failSeg ora src q).length = q := by
  intro q
  induction q with
  | zero => rfl
  | succ n ih => simp [failSeg, ih]

theorem failSeg_allFailed (ora : Nat → Nat → Nat → Bool) (src : List Nat) :
    ∀ q, (∀ i, i < q → isBpe (transferRun (ora (i+1)) src (2 ^ (i+1))) = true) →
      ∀ a ∈ failSeg ora src q, isBpe a.out = true := by
  intro q
  induction q with
  | zero => intro _ a ha; simp [failSeg] at ha
  | succ n ih =>
    intro h a ha
    simp only [failSeg, List.mem_cons] at ha
    cases ha with
    | inl he => subst he; exact h n (Nat.lt_succ_self n)
    | inr ht => exact ih (fun i hi => h i (Nat.lt_succ_of_lt hi)) a ht

theorem create_res_good (ora : Nat → Nat → Nat → Bool) (src : List Nat) :
    (create_import_sqlite true true true ora src true false).2 = Res.ret := by
  simp [create_import_sqlite, finallyRun]

/-- C1 (amended): if the transfer attempt at every chunk-size exponent from
24 down to 1 raises BrokenPipeError, the adaptive loop makes exactly 24
failed attempts, reports no attempt as a success, and then
create_import_sqlite simply falls out of the loop and returns normally: no
TransferExhaustedError (or any other error) is raised to the caller. -/
theorem c1_exhaustion_returns_normally (ora : Nat → Nat → Nat → Bool)
    (src : List Nat)
    (h : ∀ i, i < 24 → isBpe (transferRun (ora (i+1)) src (2 ^ (i+1))) = true) :
    (adaptiveGo ora src 24 []).2 = none ∧
    (adaptiveGo ora src 24 []).1.length = 24 ∧
    (∀ a ∈ (adaptiveGo ora src 24 []).1, isBpe a.out = true) ∧
    (create_import_sqlite true true true ora src true false).2 = Res.ret := by
  have hall := adaptiveGo_allFail ora src 24 [] h
  refine ⟨?_, ?_, ?_, create_res_good ora src⟩
  · rw [hall]
  · rw [hall]; simpa using failSeg_length ora src 24
  · rw [hall]
    intro a ha
    exact failSeg_allFailed ora src 24 h a (by simpa using ha)

/-- Witness for c1_exhaustion_returns_normally: a one-byte source and a
reader that closes before every write. -/
theorem c1_exhaustion_witness :
    (∀ i, i < 24 →
      isBpe (transferRun (oraAll (i+1)) [0] (2 ^ (i+1))) = true) ∧
    ((adaptiveGo oraAll [0] 24 []).2 = none ∧
     (adaptiveGo oraAll [0] 24 []).1.length = 24 ∧
     (∀ a ∈ (adaptiveGo oraAll [0] 24 []).1, isBpe a.out = true) ∧
     (create_import_sqlite true true true oraAll [0] true false).2 = Res.ret) :=
  ⟨by decide, c1_exhaustion_returns_normally oraAll [0] (by decide)⟩

/-- C1 counterexample to the claim as stated: with a one-byte source and a
reader that closes before every write, every attempt at exponents 24..1
fails, yet create_import_sqlite returns normally (Res.ret) instead of
raising or reporting any exhaustion error; its trace holds 24 attempt
events, all failed, and none reported as a success. -/
theorem c1_counterexample :
    (create_import_sqlite true true true oraAll [0] true false).2 = Res.ret ∧
    ((create_import_sqlite true true true oraAll [0] true false).1.filter
      evIsAttempt).length = 24 ∧
    (create_import_sqlite true true true oraAll [0] true false).1.all
      (fun e => !evIsOkAttempt e) = true := by
  decide

/-- C2: when no write or flush ever fails, the adaptive loop makes exactly
one attempt, at exponent 24, that starts reading at position 0 and writes
the whole source to the channel byte-for-byte in order (transfer returns
True for a nonempty source, None for an empty one), and the loop breaks
reporting that attempt. -/
theorem c2_no_failure_single_attempt (src : List Nat)
    (ora : Nat → Nat → Nat → Bool) (h : ∀ p w c, ora p w c = false) :
    adaptiveGo ora src 24 [] =
      ([⟨24, 0, if src.length = 0 then TOut.rNone [] else TOut.rTrue src⟩],
        some 24) := by
  have hrun : transferRun (ora 24) src (2 ^ 24) =
      if src.length = 0 then TOut.rNone [] else TOut.rTrue src :=
    transferRun_noFail _ _ _ (Nat.one_le_two_pow) (fun w c _ => h _ _ _)
  by_cases h0 : src.length = 0
  · rw [if_pos h0]
    rw [if_pos h0] at hrun
    exact adaptiveGo_step_done ora src 23 [] _ hrun rfl
  · rw [if_neg h0]
    rw [if_neg h0] at hrun
    exact adaptiveGo_step_done ora src 23 [] _ hrun rfl

/-- Witness for c2_no_failure_single_attempt on the three-byte source
[3, 1, 2]. -/
theorem c2_witness :
    (∀ p w c, oraNone p w c = false) ∧
    adaptiveGo oraNone [3, 1, 2] 24 [] =
      ([⟨24, 0,
          if ([3, 1, 2] : List Nat).length = 0 then TOut.rNone []
          else TOut.rTrue [3, 1, 2]⟩], some 24) :=
  ⟨fun _ _ _ => rfl, c2_no_failure_single_attempt [3, 1, 2] oraNone (fun _ _ _ => rfl)⟩

theorem adaptiveGo_failDown (ora : Nat → Nat → Nat → Bool) (src : List Nat) :
    ∀ n acc p, 2 ≤ p → p ≤ n →
      (∀ q, p ≤ q → q ≤ n → isBpe (transferRun (ora q) src (2 ^ q)) = true) →
      ∃ pre t, (adaptiveGo ora src n acc).1 =
        acc ++ (pre ++ ⟨p, 0, transferRun (ora p) src (2 ^ p)⟩ ::
          ⟨p - 1, 0, transferRun (ora (p - 1)) src (2 ^ (p - 1))⟩ :: t) := by
  intro n
  induction n with
  | zero => intro acc p hp2 hpn _; omega
  | succ m ih =>
    intro acc p hp2 hpn hfail
    by_cases hptop : p = m + 1
    · subst hptop
      have htop := hfail (m+1) le_rfl le_rfl
      cases hout : transferRun (ora (m+1)) src (2 ^ (m+1)) with
      | bpe w =>
        rw [adaptiveGo_step_bpe ora src m acc w hout]
        have hm0 : ¬m = 0 := by omega
        obtain ⟨t, ht⟩ :=
          adaptiveGo_first ora src m (acc ++ [⟨m+1, 0, TOut.bpe w⟩]) hm0
        refine ⟨[], t, ?_⟩
        rw [ht]
        simp [Nat.add_sub_cancel]
      | rTrue w => rw [hout] at htop; simp [isBpe] at htop
      | rNone w => rw [hout] at htop; simp [isBpe] at htop
      | spin => rw [hout] at htop; simp [isBpe] at htop
    · have hpm : p ≤ m := by omega
      have htop := hfail (m+1) (by omega) le_rfl
      cases hout : transferRun (ora (m+1)) src (2 ^ (m+1)) with
      | bpe w =>
        rw [adaptiveGo_step_bpe ora src m acc w hout]
        obtain ⟨pre, t, ht⟩ := ih (acc ++ [⟨m+1, 0, TOut.bpe w⟩]) p hp2 hpm
          (fun q hq1 hq2 => hfail q hq1 (by omega))
        refine ⟨⟨m+1, 0, TOut.bpe w⟩ :: pre, t, ?_⟩
        rw [ht]
        simp
      | rTrue w => rw [hout] at htop; simp [isBpe] at htop
      | rNone w => rw [hout] at htop; simp [isBpe] at htop
      | spin => rw [hout] at htop; simp [isBpe] at htop

/-- C3 (amended): for every chunk-size exponent p with 2 <= p <= 24, if
the attempts at exponents 24 down to p all raise BrokenPipeError, the
attempt at exponent p is immediately followed by an attempt at exactly
exponent p-1, and that new attempt starts reading the source at offset 0
(the startPos field, from csv_fh.seek(0) at line 116).  At p = 1 the code
instead decrements the exponent to 0 and exits the loop: no new attempt
begins (see the counterexample). -/
theorem c3_backoff_decrement_rewind (ora : Nat → Nat → Nat → Bool)
    (src : List Nat) (p : Nat) (hp2 : 2 ≤ p) (hp24 : p ≤ 24)
    (hfail : ∀ q, p ≤ q → q ≤ 24 → isBpe (transferRun (ora q) src (2 ^ q)) = true) :
    ∃ pre t, (adaptiveGo ora src 24 []).1 =
      pre ++ ⟨p, 0, transferRun (ora p) src (2 ^ p)⟩ ::
        ⟨p - 1, 0, transferRun (ora (p - 1)) src (2 ^ (p - 1))⟩ :: t := by
  obtain ⟨pre, t, ht⟩ := adaptiveGo_failDown ora src 24 [] p hp2 hp24 hfail
  exact ⟨pre, t, by simpa using ht⟩

/-- Witness for c3_backoff_decrement_rewind at p = 24 with a one-byte
source and a reader that closes before every write. -/
theorem c3_witness :
    (∀ q, 24 ≤ q → q ≤ 24 →
      isBpe (transferRun (oraAll q) [0] (2 ^ q)) = true) ∧
    (∃ pre t, (adaptiveGo oraAll [0] 24 []).1 =
      pre ++ ⟨24, 0, transferRun (oraAll 24) [0] (2 ^ 24)⟩ ::
        ⟨23, 0, transferRun (oraAll 23) [0] (2 ^ 23)⟩ :: t) := by
  have hq : ∀ q, 24 ≤ q → q ≤ 24 →
      isBpe (transferRun (oraAll q) [0] (2 ^ q)) = true := by
    intro q h1 h2
    have he : q = 24 := le_antisymm h2 h1
    subst he
    decide
  exact ⟨hq, c3_backoff_decrement_rewind oraAll [0] 24 (by decide) (by decide) hq⟩

/-- C3 counterexample to the claim as stated at p = 1: with a one-byte
source and a reader that closes before every write, the attempt at
exponent 1 occurs and fails, but it is the last attempt of the loop: the
exponent is decremented to 0, the loop exits and no new attempt begins. -/
theorem c3_counterexample :
    (adaptiveGo oraAll [0] 24 []).1.map Att.p =
      [24, 23, 22, 21, 20, 19, 18, 17, 16, 15, 14, 13,
       12, 11, 10, 9, 8, 7, 6, 5, 4, 3, 2, 1] ∧
    ((adaptiveGo oraAll [0] 24 []).1.all fun a => isBpe a.out) = true ∧
    (adaptiveGo oraAll [0] 24 []).2 = none := by
  decide

theorem adaptiveMib (src : List Nat) (h : src.length = 10485760) :
    adaptiveGo oraMib src 24 [] =
      ([⟨24, 0, TOut.bpe []⟩, ⟨23, 0, TOut.bpe []⟩, ⟨22, 0, TOut.bpe []⟩,
        ⟨21, 0, TOut.bpe []⟩, ⟨20, 0, TOut.rTrue src⟩], some 20) := by
  have hlen0 : ¬src.length = 0 := by omega
  have h24 : transferRun (oraMib 24) src (2 ^ 24) = TOut.bpe [] :=
    transferRun_firstFail _ _ _ hlen0 (by rw [h]; decide)
  have h23 : transferRun (oraMib 23) src (2 ^ 23) = TOut.bpe [] :=
    transferRun_firstFail _ _ _ hlen0 (by rw [h]; decide)
  have h22 : transferRun (oraMib 22) src (2 ^ 22) = TOut.bpe [] :=
    transferRun_firstFail _ _ _ hlen0 (by rw [h]; decide)
  have h21 : transferRun (oraMib 21) src (2 ^ 21) = TOut.bpe [] :=
    transferRun_firstFail _ _ _ hlen0 (by rw [h]; decide)
  have hfw : ∀ w c, c ≤ 2 ^ 20 → oraMib 20 w c = false := by
    intro w c hc
    exact decide_eq_false (by omega)
  have h20 : transferRun (oraMib 20) src (2 ^ 20) = TOut.rTrue src := by
    rw [transferRun_noFail (oraMib 20) src (2 ^ 20) Nat.one_le_two_pow hfw,
      if_neg hlen0]
  have s1 : adaptiveGo oraMib src 24 [] =
      adaptiveGo oraMib src 23 [⟨24, 0, TOut.bpe []⟩] := by
    simpa using adaptiveGo_step_bpe oraMib src 23 [] [] h24
  have s2 : adaptiveGo oraMib src 23 [⟨24, 0, TOut.bpe []⟩] =
      adaptiveGo oraMib src 22 [⟨24, 0, TOut.bpe []⟩, ⟨23, 0, TOut.bpe []⟩] := by
    simpa using adaptiveGo_step_bpe oraMib src 22 [⟨24, 0, TOut.bpe []⟩] [] h23
  have s3 : adaptiveGo oraMib src 22 [⟨24, 0, TOut.bpe []⟩, ⟨23, 0, TOut.bpe []⟩] =
      adaptiveGo oraMib src 21
        [⟨24, 0, TOut.bpe []⟩, ⟨23, 0, TOut.bpe []⟩, ⟨22, 0, TOut.bpe []⟩] := by
    simpa using adaptiveGo_step_bpe oraMib src 21
      [⟨24, 0, TOut.bpe []⟩, ⟨23, 0, TOut.bpe []⟩] [] h22
  have s4 : adaptiveGo oraMib src 21
        [⟨24, 0, TOut.bpe []⟩, ⟨23, 0, TOut.bpe []⟩, ⟨22, 0, TOut.bpe []⟩] =
      adaptiveGo oraMib src 20
        [⟨24, 0, TOut.bpe []⟩, ⟨23, 0, TOut.bpe []⟩, ⟨22, 0, TOut.bpe []⟩,
         ⟨21, 0, TOut.bpe []⟩] := by
    simpa using adaptiveGo_step_bpe oraMib src 20
      [⟨24, 0, TOut.bpe []⟩, ⟨23, 0, TOut.bpe []⟩, ⟨22, 0, TOut.bpe []⟩] [] h21
  have s5 : adaptiveGo oraMib src 20
        [⟨24, 0, TOut.bpe []⟩, ⟨23, 0, TOut.bpe []⟩, ⟨22, 0, TOut.bpe []⟩,
         ⟨21, 0, TOut.bpe []⟩] =
      ([⟨24, 0, TOut.bpe []⟩, ⟨23, 0, TOut.bpe []⟩, ⟨22, 0, TOut.bpe []⟩,
        ⟨21, 0, TOut.bpe []⟩, ⟨20, 0, TOut.rTrue src⟩], some 20) := by
    simpa using adaptiveGo_step_done oraMib src 19
      [⟨24, 0, TOut.bpe []⟩, ⟨23, 0, TOut.bpe []⟩, ⟨22, 0, TOut.bpe []⟩,
       ⟨21, 0, TOut.bpe []⟩] (TOut.rTrue src) h20 rfl
  rw [s1, s2, s3, s4, s5]

/-- C8 (amended): for a source of exactly 10 MiB with starting exponent 24
and a reader that cannot absorb a single write larger than 1 MiB, the
session performs exactly 4 failed attempts, at exponents 24, 23, 22 and 21,
followed by exactly 1 successful attempt at exponent 20 that writes the
whole source, and reports success at exponent 20 (not 5 failed attempts as
claimed: the exponents from 24 down to one above 20 are only 4). -/
theorem c8_ten_mib_four_failures (src : List Nat) (h : src.length = 10485760) :
    attemptTags (adaptiveGo oraMib src 24 []).1 =
      [(24, true), (23, true), (22, true), (21, true), (20, false)] ∧
    countFailed (adaptiveGo oraMib src 24 []).1 = 4 ∧
    (adaptiveGo oraMib src 24 []).2 = some 20 := by
  rw [adaptiveMib src h]
  exact ⟨rfl, rfl, rfl⟩

/-- Witness for c8_ten_mib_four_failures on a concrete 10 MiB source. -/
theorem c8_witness :
    (List.replicate 10485760 (0 : Nat)).length = 10485760 ∧
    (attemptTags (adaptiveGo oraMib (List.replicate 10485760 0) 24 []).1 =
       [(24, true), (23, true), (22, true), (21, true), (20, false)] ∧
     countFailed (adaptiveGo oraMib (List.replicate 10485760 0) 24 []).1 = 4 ∧
     (adaptiveGo oraMib (List.replicate 10485760 0) 24 []).2 = some 20) :=
  ⟨List.length_replicate _ _,
    c8_ten_mib_four_failures (List.replicate 10485760 0)
      (List.length_replicate _ _)⟩

/-- C8 counterexample to the claim as stated: on a concrete 10 MiB source
with the 1 MiB-per-write reader, the session performs 4 failed attempts,
not 5. -/
theorem c8_counterexample :
    countFailed (adaptiveGo oraMib (List.replicate 10485760 (0 : Nat)) 24 []).1
        = 4 ∧
    ¬countFailed (adaptiveGo oraMib (List.replicate 10485760 (0 : Nat)) 24 []).1
        = 5 := by
  have hrun := adaptiveMib (List.replicate 10485760 0) (List.length_replicate _ _)
  have h4 : countFailed
      (adaptiveGo oraMib (List.replicate 10485760 (0 : Nat)) 24 []).1 = 4 := by
    rw [hrun]
    rfl
  exact ⟨h4, by omega⟩

/-- C4 (code behaviour at the failing input): when os.mkfifo raises an
OSError after the temporary directory was created, the except clause
swallows the error, but the finally block then reads the never-assigned
local proc and raises UnboundLocalError, so neither os.remove of the FIFO
nor os.rmdir of the temporary directory is ever executed: the temporary
directory leaks, contradicting the claim that cleanup runs exactly once on
every exit path. -/
theorem c4_leak_on_mkfifo_failure :
    create_import_sqlite true false true oraNone [] true false
      = ([Ev.mkdtemp, Ev.csvClose], Res.exc PyExc.unboundLocal) ∧
    Ev.mkdtemp ∈ (create_import_sqlite true false true oraNone [] true false).1 ∧
    Ev.rmTmpdir ∉ (create_import_sqlite true false true oraNone [] true false).1 ∧
    Ev.rmFifo ∉ (create_import_sqlite true false true oraNone [] true false).1 := by
  decide

/-- C6 (code behaviour at the failing input): when the table-creating
sqlite3 run exits non-zero, check=True raises CalledProcessError before any
transfer attempt, but the finally block reads the never-assigned local proc
and raises UnboundLocalError, which replaces the CalledProcessError and
skips the removal of the FIFO and the temporary directory: the job neither
surfaces the schema error nor cleans up the created resources. -/
theorem c6_schema_failure_masks_and_leaks :
    create_import_sqlite true true false oraNone [] true false
      = ([Ev.mkdtemp, Ev.mkfifo, Ev.schemaRun, Ev.csvClose],
         Res.exc PyExc.unboundLocal) ∧
    ((create_import_sqlite true true false oraNone [] true false).1.all
      fun e => !evIsAttempt e) = true ∧
    Ev.rmFifo ∉ (create_import_sqlite true true false oraNone [] true false).1 ∧
    Ev.rmTmpdir ∉ (create_import_sqlite true true false oraNone [] true false).1 ∧
    ¬(create_import_sqlite true true false oraNone [] true false).2
        = Res.exc PyExc.calledProcess := by
  decide

/-- C7 (amended): when the FIFO entry no longer exists at cleanup time,
os.remove raises FileNotFoundError, which propagates out of the finally
block uncaught: the removal of the temporary directory is skipped, not
still attempted, and the error is fatal to the job. -/
theorem c7_missing_fifo_fatal (ora : Nat → Nat → Nat → Bool) (src : List Nat) :
    (create_import_sqlite true true true ora src true true).2
        = Res.exc PyExc.fileNotFound ∧
    Ev.rmFifo ∉ (create_import_sqlite true true true ora src true true).1 ∧
    Ev.rmTmpdir ∉ (create_import_sqlite true true true ora src true true).1 := by
  refine ⟨?_, ?_, ?_⟩ <;> simp [create_import_sqlite, finallyRun, attEv]

/-- C7 counterexample to the claim as stated: at a concrete input where the
FIFO entry vanished before cleanup, close is fatal (FileNotFoundError
propagates) and the temporary-directory removal is never attempted. -/
theorem c7_counterexample :
    (create_import_sqlite true true true oraNone [] true true).2
        = Res.exc PyExc.fileNotFound ∧
    Ev.rmTmpdir ∉ (create_import_sqlite true true true oraNone [] true true).1 := by
  decide

/-- C5: on every execution in which the loader process was started and the
FIFO entry is removed, the removal is immediately preceded by the complete
terminate sequence: .quit write, flush, stdin close, process wait, in that
order; the channel entry is never removed before the loader has been
waited on, for successful and failed transfer outcomes alike. -/
theorem c5_terminate_before_remove (dtOk fifoOk schemaOk : Bool)
    (ora : Nat → Nat → Nat → Bool) (src : List Nat) (quitOk vanished : Bool)
    (h : Ev.rmFifo ∈
      (create_import_sqlite dtOk fifoOk schemaOk ora src quitOk vanished).1) :
    ∃ l1 l2,
      (create_import_sqlite dtOk fifoOk schemaOk ora src quitOk vanished).1
        = l1 ++ Ev.quitWrite :: Ev.quitFlush :: Ev.stdinClose :: Ev.procWait ::
            Ev.rmFifo :: l2 ∧
      Ev.popenStart ∈ l1 := by
  cases dtOk with
  | false => simp [create_import_sqlite, finallyRun] at h
  | true =>
    cases fifoOk with
    | false => simp [create_import_sqlite, finallyRun] at h
    | true =>
      cases schemaOk with
      | false => simp [create_import_sqlite, finallyRun] at h
      | true =>
        cases quitOk with
        | false => simp [create_import_sqlite, finallyRun, attEv] at h
        | true =>
          cases vanished with
          | true => simp [create_import_sqlite, finallyRun, attEv] at h
          | false =>
            refine ⟨[Ev.mkdtemp, Ev.mkfifo, Ev.schemaRun, Ev.popenStart] ++
              (adaptiveGo ora src 24 []).1.map attEv ++ [Ev.csvClose],
              [Ev.rmTmpdir], ?_, by simp⟩
            simp [create_import_sqlite, finallyRun]

/-- Witness for c5_terminate_before_remove: the all-successful execution on
an empty source. -/
theorem c5_witness :
    Ev.rmFifo ∈ (create_import_sqlite true true true oraNone [] true false).1 ∧
    (∃ l1 l2, (create_import_sqlite true true true oraNone [] true false).1
        = l1 ++ Ev.quitWrite :: Ev.quitFlush :: Ev.stdinClose :: Ev.procWait ::
            Ev.rmFifo :: l2 ∧
      Ev.popenStart ∈ l1) :=
  ⟨by decide,
    c5_terminate_before_remove true true true oraNone [] true false (by decide)⟩

/-- C9: when the command line has no --zip path, main prints the help text
and returns normally, performing no archive walk. -/
theorem c9_no_zip_prints_help (hasSqlite hasFilter : Bool) :
    mainRun false hasSqlite hasFilter = ([MainEv.printHelp], Res.ret) := rfl

/-- C10: on an empty source, transfer runs no loop iteration, writes no
byte and returns None (not True); the adaptive loop nevertheless breaks
after this single attempt at exponent 24 and create_import_sqlite finishes
without raising any error. -/
theorem c10_empty_source_single_attempt (fw : Nat → Nat → Bool) (b : Nat)
    (ora : Nat → Nat → Nat → Bool) :
    transferRun fw [] b = TOut.rNone [] ∧
    adaptiveGo ora [] 24 [] = ([⟨24, 0, TOut.rNone []⟩], some 24) ∧
    (create_import_sqlite true true true ora [] true false).2 = Res.ret :=
  ⟨rfl, rfl, create_res_good ora []⟩

end Csv2db
